import Mathlib

/-!
Verification of the Polymarket 15-minute Bitcoin market export bot
(`discovery.py` and `market_watcher.py`) against its natural-language
specification.  The Python code is shallowly embedded: civil datetimes
become a record of calendar fields, timestamps and prices become `Int`
and `Rat`, fallible operations (Python exceptions) become `Except` /
explicit error constructors, and the network is an oracle function from
query strings to fetch results.
-/

namespace PM

/-- A timezone-aware civil datetime (the ET-localized `datetime` values used
by `discovery.py`; all values compared share one fixed UTC offset, so the
Python comparison is the usual lexicographic field comparison). -/
structure DT where
  year : Nat
  month : Nat
  day : Nat
  hour : Nat
  minute : Nat
  second : Nat
  usec : Nat
  deriving DecidableEq, Repr

/-- Gregorian leap year, as Python's `calendar`/`datetime` define it. -/
def isLeap (y : Nat) : Bool := (y % 4 = 0 && y % 100 != 0) || y % 400 = 0

/-- Number of days in a month of a given year. -/
def daysInMonth (y m : Nat) : Nat :=
  if m = 2 then (if isLeap y then 29 else 28)
  else if m = 4 ∨ m = 6 ∨ m = 9 ∨ m = 11 then 30
  else 31

/-- A `DT` whose fields are in the ranges Python's `datetime` guarantees. -/
def DT.Valid (t : DT) : Prop :=
  1 ≤ t.month ∧ t.month ≤ 12 ∧ 1 ≤ t.day ∧ t.day ≤ daysInMonth t.year t.month ∧
  t.hour < 24 ∧ t.minute < 60 ∧ t.second < 60 ∧ t.usec < 1000000

instance (t : DT) : Decidable t.Valid := by unfold DT.Valid; infer_instance

/-- An injection of valid datetimes into `Nat` that is strictly monotone for
the lexicographic field order; two same-offset aware datetimes compare in
Python exactly as their keys compare. -/
def DT.key (t : DT) : Nat :=
  (((((t.year * 13 + t.month) * 32 + t.day) * 24 + t.hour) * 60 + t.minute)
      * 60 + t.second) * 1000000 + t.usec

/-- Python `<=` on two same-offset aware datetimes. -/
def DT.le (a b : DT) : Prop := a.key ≤ b.key

/-- Python `<` on two same-offset aware datetimes. -/
def DT.lt (a b : DT) : Prop := a.key < b.key

instance (a b : DT) : Decidable (a.le b) := by unfold DT.le; infer_instance
instance (a b : DT) : Decidable (a.lt b) := by unfold DT.lt; infer_instance

/-- Roll a datetime forward one calendar day (`timedelta` day carry). -/
def nextDay (t : DT) : DT :=
  if t.day < daysInMonth t.year t.month then { t with day := t.day + 1 }
  else if t.month < 12 then { t with month := t.month + 1, day := 1 }
  else { t with year := t.year + 1, month := 1, day := 1 }

/-- Roll a datetime forward `n` calendar days. -/
def addDays : DT → Nat → DT
  | t, 0 => t
  | t, Nat.succ n => addDays (nextDay t) n

/-- Embeds `t + timedelta(minutes := n)` on the civil fields (pytz arithmetic on a
localized datetime adds to the naive fields, carrying into hours and days). -/
def addMinutes (t : DT) (n : Nat) : DT :=
  let tm := t.minute + n
  let th := t.hour + tm / 60
  addDays { t with hour := th % 24, minute := tm % 60 } (th / 24)

/-- The function `get_window_boundaries` from `discovery.py`: floor the minute to the
nearest multiple of 15, zero out seconds and microseconds, and add 15
minutes for the window end. -/
def get_window_boundaries (now_et : DT) : DT × DT :=
  let minute := (now_et.minute / 15) * 15
  let start := { now_et with minute := minute, second := 0, usec := 0 }
  (start, addMinutes start 15)

/-- English month name, as `strftime("%B")` renders it in the C locale. -/
def monthName : Nat → String
  | 1 => "January" | 2 => "February" | 3 => "March" | 4 => "April"
  | 5 => "May" | 6 => "June" | 7 => "July" | 8 => "August"
  | 9 => "September" | 10 => "October" | 11 => "November" | 12 => "December"
  | _ => ""

/-- Zero-padded two-digit rendering used by `strftime` numeric fields. -/
def pad2 (n : Nat) : String := if n < 10 then "0" ++ toString n else toString n

/-- Twelve-hour clock hour, as `strftime("%I")` (always 1 to 12). -/
def hour12 (h : Nat) : Nat := if h % 12 = 0 then 12 else h % 12

/-- Renders `strftime("%p")` in the C locale. -/
def meridiem (h : Nat) : String := if h < 12 then "AM" else "PM"

/-- The function `title_variants` from `discovery.py`: the three query strings generated
for a window start, with `strftime` zero-padding undone by `replace(" 0", " ")`
on the date and `lstrip("0")` on the time. -/
def title_variants (start : DT) : List String :=
  let date_str := (monthName start.month ++ " " ++ pad2 start.day).replace " 0" " "
  let time_str :=
    ((pad2 (hour12 start.hour) ++ ":" ++ pad2 start.minute ++ meridiem start.hour).dropWhile
      (fun c => c = '0')).toUpper
  [ "Bitcoin Up or Down " ++ date_str ++ " " ++ time_str ++ " ET",
    "Bitcoin Up or Down - " ++ date_str ++ ", " ++ time_str ++ " ET",
    "Bitcoin Up or Down - " ++ date_str ++ " " ++ time_str ++ " ET" ]

/-!
Discovery.  A raw search hit is embedded with each dictionary key as an
`Option` (missing key = `none`).  A timestamp string is embedded by its
parse result: `some t` if `datetime.fromisoformat` would succeed and the
instant is `t` (absolute seconds), `none` if it would raise.  Similarly the
`clobTokenIds` value is embedded by its `json.loads` result.
-/

/-- One market record of a search hit (`ev["markets"][i]` in the source). -/
structure RawMarket where
  eventStartTime : Option (Option Int)
  endDate : Option (Option Int)
  clobTokenIds : Option (Option (List String))
  conditionId : Option String
  questionID : Option String
  deriving DecidableEq, Repr

/-- The empty dictionary `{}` used as the default first market. -/
def emptyMarket : RawMarket := ⟨none, none, none, none, none⟩

/-- One event of a search response body. -/
structure RawEvent where
  title : Option String
  startTime : Option (Option Int)
  endDate : Option (Option Int)
  markets : Option (List RawMarket)
  deriving DecidableEq, Repr

/-- Outcome of one HTTP search request: `netError` if `session.get` (or
reading the response) raised, otherwise the status code and the body's
JSON decode result (`none` = `resp.json()` raised). -/
inductive FetchResult where
  | netError
  | response (status : Nat) (body : Option (List RawEvent))
  deriving DecidableEq, Repr

/-- The dictionary `find_active_window` returns on success. -/
structure Descriptor where
  title : String
  yes_id : String
  no_id : String
  start_time : Int
  end_time : Int
  condition_id : Option String
  question_id : Option String
  deriving DecidableEq, Repr

/-- Embeds `ev.get("markets", [{}])[0]`: the default singleton makes a missing key
yield the empty dict, but an explicitly empty list raises `IndexError`. -/
def first_market (ev : RawEvent) : Except Unit RawMarket :=
  match ev.markets with
  | none => .ok emptyMarket
  | some [] => .error ()
  | some (m :: _) => .ok m

/-- Duration filter of `find_active_window`: `duration > 1800` rejects. -/
def duration_exceeds (start_dt end_dt : Int) : Bool :=
  decide (end_dt - start_dt > 1800)

/-- Liveness filter of `find_active_window`: `start_dt <= now_et < end_dt`. -/
def is_live (start_dt end_dt now : Int) : Bool :=
  decide (start_dt ≤ now) && decide (now < end_dt)

/-- The body of the `for ev in events` loop of `find_active_window`:
`.ok none` = `continue`, `.ok (some d)` = `return`, `.error` = an uncaught
exception (unparsable timestamp, empty `markets` list, or a missing,
unparsable or too-short `clobTokenIds` on a live hit). -/
def process_event (now_abs : Int) (ev : RawEvent) : Except Unit (Option Descriptor) :=
  match first_market ev with
  | .error e => .error e
  | .ok m =>
    match m.eventStartTime <|> ev.startTime, m.endDate <|> ev.endDate with
    | some sRaw, some eRaw =>
      match sRaw, eRaw with
      | some s, some e =>
        if duration_exceeds s e then .ok none
        else if is_live s e now_abs then
          match m.clobTokenIds with
          | some (some (t0 :: t1 :: _)) =>
            .ok (some { title := ev.title.getD "BTC 15m", yes_id := t0, no_id := t1,
                        start_time := s, end_time := e,
                        condition_id := m.conditionId, question_id := m.questionID })
          | _ => .error ()
        else .ok none
      | _, _ => .error ()
    | _, _ => .ok none

/-- The `for ev in events` loop: first descriptor wins, exceptions escape. -/
def process_events (now_abs : Int) : List RawEvent → Except Unit (Option Descriptor)
  | [] => .ok none
  | ev :: rest =>
    match process_event now_abs ev with
    | .error e => .error e
    | .ok (some d) => .ok (some d)
    | .ok none => process_events now_abs rest

/-- Bookkeeping: one more query was issued before the recursive result. -/
def bump (p : Except Unit (Option Descriptor) × Nat) :
    Except Unit (Option Descriptor) × Nat :=
  (p.1, p.2 + 1)

/-- The `for q in queries` loop of `find_active_window`.  Returns the loop's
outcome together with how many queries were issued.  Request failures and
non-200 statuses and undecodable bodies are caught and skipped; exceptions
from hit processing escape. -/
def sweep (now_abs : Int) (fetch : String → FetchResult) :
    List String → Except Unit (Option Descriptor) × Nat
  | [] => (.ok none, 0)
  | q :: rest =>
    match fetch q with
    | .netError => bump (sweep now_abs fetch rest)
    | .response status body =>
      if status ≠ 200 then bump (sweep now_abs fetch rest)
      else
        match body with
        | none => bump (sweep now_abs fetch rest)
        | some events =>
          match process_events now_abs events with
          | .error e => (.error e, 1)
          | .ok (some d) => (.ok (some d), 1)
          | .ok none => bump (sweep now_abs fetch rest)

/-- The function `find_active_window` from `discovery.py`.  `now_et` is the civil (ET)
reading of the current time, used for window and query generation; `now_abs`
is the same instant as absolute seconds, used by the liveness comparison of
aware datetimes; `fetch` is the search API.  Returns the result (`.error` =
the call raised) and the number of queries issued. -/
def find_active_window (now_et : DT) (now_abs : Int) (fetch : String → FetchResult) :
    Except Unit (Option Descriptor) × Nat :=
  let se := get_window_boundaries now_et
  let queries := title_variants se.1 ++ title_variants se.2
  sweep now_abs fetch queries

/-!
`market_watcher.py`.  Prices are embedded as `Rat` (update and routing only
compare and assign them, no rounding occurs there).  A numeric string from
the wire is embedded by its truthiness (`""` is falsy) and its `float()`
parse result (`none` = `float` raises).
-/

/-- The mutable state of `MarketWatcher`: the two token ids captured at
construction and the `prices` dictionary (`0.0` = unknown). -/
structure Watcher where
  yes_id : String
  no_id : String
  yes_price : Rat
  no_price : Rat
  deriving DecidableEq, Repr

/-- Embeds `MarketWatcher.update_price`: discard a zero price outright; otherwise
route by exact token-id match (unmatched ids change nothing) and then
always call `refresh_display`.  The `Bool` records whether the display
sink was notified. -/
def update_price (w : Watcher) (asset_id : String) (price : Rat) : Watcher × Bool :=
  if price = 0 then (w, false)
  else if asset_id = w.yes_id then ({ w with yes_price := price }, true)
  else if asset_id = w.no_id then ({ w with no_price := price }, true)
  else (w, true)

/-- A raw numeric string from a message: `truthy` = nonempty, `val` = its
`float()` parse result (`none` = `ValueError`). -/
structure RawNum where
  truthy : Bool
  val : Option Rat
  deriving DecidableEq, Repr

/-- One record of a `price_change` batch. -/
structure PriceChange where
  asset_id : Option String
  best_ask : Option RawNum
  deriving DecidableEq, Repr

/-- One entry of a book snapshot's `asks` list. -/
structure AskEntry where
  price : Option RawNum
  deriving DecidableEq, Repr

/-- An inbound message payload (a JSON object), keys as `Option`s. -/
structure Item where
  event_type : Option String
  asset_id : Option String
  best_ask : Option RawNum
  price_changes : Option (List PriceChange)
  asks : Option (List AskEntry)
  deriving DecidableEq, Repr

/-- Result of running `process_item` (or a batch of items): the watcher
state reached and how many display notifications fired; `raised` means a
Python exception escaped after that state was reached. -/
inductive PResult where
  | ok (w : Watcher) (notifs : Nat)
  | raised (w : Watcher) (notifs : Nat)
  deriving DecidableEq, Repr

/-- Returns `1` if the display fired, else `0`. -/
def notifCount (b : Bool) : Nat := if b then 1 else 0

/-- The `for c in item.get('price_changes', [])` loop of `process_item`:
`c['asset_id']` raises on a missing key; `float(c.get('best_ask') or 0)`
turns a missing or falsy ask into `0.0` (which `update_price` discards)
and raises on an unparsable one. -/
def run_changes (w : Watcher) (n : Nat) : List PriceChange → PResult
  | [] => .ok w n
  | c :: rest =>
    match c.asset_id with
    | none => .raised w n
    | some aid =>
      let parsed : Except Unit Rat :=
        match c.best_ask with
        | none => .ok 0
        | some r =>
          if r.truthy then
            match r.val with
            | none => .error ()
            | some p => .ok p
          else .ok 0
      match parsed with
      | .error _ => .raised w n
      | .ok p =>
        let u := update_price w aid p
        run_changes u.1 (n + notifCount u.2) rest

/-- Embeds `process_item` from `market_watcher.py`: dispatch on `event_type` over
the three known shapes; anything else falls through untouched. -/
def process_item (w : Watcher) (it : Item) : PResult :=
  if it.event_type = some "level1" then
    match it.asset_id, it.best_ask with
    | some aid, some r =>
      if aid ≠ "" && r.truthy then
        match r.val with
        | none => .raised w 0
        | some p =>
          let u := update_price w aid p
          .ok u.1 (notifCount u.2)
      else .ok w 0
    | _, _ => .ok w 0
  else if it.event_type = some "price_change" then
    run_changes w 0 (it.price_changes.getD [])
  else if it.event_type = some "book" then
    match it.asks.getD [] with
    | [] => .ok w 0
    | a :: _ =>
      match it.asset_id with
      | none => .raised w 0
      | some aid =>
        match a.price with
        | none => .raised w 0
        | some r =>
          match r.val with
          | none => .raised w 0
          | some p =>
            let u := update_price w aid p
            .ok u.1 (notifCount u.2)
  else .ok w 0

/-- Embeds `for item in data: process_item(item, watcher)` over a JSON array. -/
def run_items (w : Watcher) (n : Nat) : List Item → PResult
  | [] => .ok w n
  | it :: rest =>
    match process_item w it with
    | .ok w1 n1 => run_items w1 (n + n1) rest
    | .raised w1 n1 => .raised w1 (n + n1)

/-- The `json.loads` result of an inbound text frame. -/
inductive Data where
  | arr (items : List Item)
  | obj (item : Item)
  | other
  deriving DecidableEq, Repr

/-- What `asyncio.wait_for(ws.recv(), 10)` produced: a timeout, a raised
connection error, or a frame whose decode result is `none` when
`json.loads` raised. -/
inductive Inbound where
  | timeout
  | recvError
  | msg (d : Option Data)
  deriving DecidableEq, Repr

/-- Outcome of one iteration of the inner `while True` of `main_loop`. -/
inductive IterResult where
  | expired (w : Watcher)
  | next (w : Watcher) (notifs : Nat)
  | streamErr (w : Watcher) (notifs : Nat)
  deriving DecidableEq, Repr

/-- One iteration of the inner receive loop of `main_loop`: first the expiry
check (`break` when no time remains), then the bounded wait.  A timeout
pings and loops; `ws.recv` raising, `json.loads` raising, or an exception
escaping `process_item` all hit `except Exception: break` (stream error);
a decoded value that is neither a list nor a dict is ignored. -/
def session_iter (w : Watcher) (time_remaining : Int) (inb : Inbound) : IterResult :=
  if time_remaining ≤ 0 then .expired w
  else
    match inb with
    | .timeout => .next w 0
    | .recvError => .streamErr w 0
    | .msg none => .streamErr w 0
    | .msg (some .other) => .next w 0
    | .msg (some (.obj it)) =>
      match process_item w it with
      | .ok w1 n => .next w1 n
      | .raised w1 n => .streamErr w1 n
    | .msg (some (.arr its)) =>
      match run_items w 0 its with
      | .ok w1 n => .next w1 n
      | .raised w1 n => .streamErr w1 n

/-!
Input classes used to state the discovery theorems.
-/

/-- A hit the source skips at the `if not start_ts or not end_ts` guard:
its (defaulted) first market exists and the `or`-chosen start or end
timestamp key is absent. -/
def hit_skippable (ev : RawEvent) : Bool :=
  match first_market ev with
  | .error _ => false
  | .ok m => (m.eventStartTime <|> ev.startTime).isNone
      || (m.endDate <|> ev.endDate).isNone

/-- A query outcome the sweep skips without raising: a request failure, a
non-200 status, an undecodable body, or a body all of whose hits lack a
start or end timestamp. -/
def benign_result (r : FetchResult) : Bool :=
  match r with
  | .netError => true
  | .response status body =>
    if status ≠ 200 then true
    else
      match body with
      | none => true
      | some events => events.all hit_skippable

/-- The first two entries of the market's parsed `clobTokenIds` differ
(vacuously true when there is no such pair). -/
def market_tokens_distinct (m : RawMarket) : Bool :=
  match m.clobTokenIds with
  | some (some (t0 :: t1 :: _)) => decide (t0 ≠ t1)
  | _ => true

/-- Token distinctness for the first market of a hit. -/
def event_tokens_distinct (ev : RawEvent) : Bool :=
  match ev.markets with
  | some (m :: _) => market_tokens_distinct m
  | _ => true

/-- Token distinctness for every hit of a query outcome. -/
def fetch_tokens_distinct (r : FetchResult) : Bool :=
  match r with
  | .response _ (some events) => events.all event_tokens_distinct
  | _ => true

/-- A concrete watcher used by witness instantiations. -/
def w0 : Watcher := ⟨"A", "B", 0, 0⟩

/-- A concrete civil time used by concrete discovery runs. -/
def dt0 : DT := ⟨2025, 1, 1, 0, 0, 0, 0⟩

/-- A search API whose every response is a 200 body with one hit whose
first market has a present but unparsable start-timestamp string. -/
def fetch_badts : String → FetchResult := fun _ =>
  .response 200 (some [⟨none, none, none,
    some [⟨some none, some (some 100), none, none, none⟩]⟩])

/-- A search API whose every response is a 200 body with one live
short-duration hit whose two outcome token ids coincide. -/
def fetch_dup : String → FetchResult := fun _ =>
  .response 200 (some [⟨none, none, none,
    some [⟨some (some 0), some (some 100), some (some ["T", "T"]), none, none⟩]⟩])

/-- A search API whose every response is a 200 body with one live
short-duration hit with two distinct outcome token ids. -/
def fetch_ok : String → FetchResult := fun _ =>
  .response 200 (some [⟨none, none, none,
    some [⟨some (some 0), some (some 100), some (some ["Y", "N"]), none, none⟩]⟩])

/-- Claim C5: the duration filter rejects a candidate market exactly when
`end_time - start_time` strictly exceeds 1800 seconds; in particular a
duration of 1801 seconds is rejected and 1800 seconds is accepted (left to
the liveness filter). -/
theorem duration_filter_boundary (s : Int) :
    duration_exceeds s (s + 1801) = true ∧
    duration_exceeds s (s + 1800) = false ∧
    (∀ e : Int, duration_exceeds s e = true ↔ e - s > 1800) := by
  unfold duration_exceeds
  refine ⟨by simp, by simp, fun e => by simp⟩

/-- Claim C6: the liveness filter accepts exactly when
`start_time <= now < end_time`; `now = end_time` is rejected and
`now = start_time` is accepted (for a nonempty window). -/
theorem liveness_filter_boundary (s e now : Int) :
    (is_live s e now = true ↔ s ≤ now ∧ now < e) ∧
    is_live s e e = false ∧
    (s < e → is_live s e s = true) := by
  unfold is_live
  refine ⟨by simp, by simp, fun h => by simp [h]⟩

theorem liveness_filter_boundary_witness :
    (is_live 0 10 5 = true ↔ (0:Int) ≤ 5 ∧ (5:Int) < 10) ∧
    is_live 0 10 10 = false ∧
    ((0:Int) < 10 → is_live 0 10 0 = true) :=
  liveness_filter_boundary 0 10 5

/-- Claim C7: an update carrying price exactly `0` leaves both price fields
of the state unchanged (and fires no display refresh), and a subsequent
nonzero update for a matching asset id is still applied normally. -/
theorem zero_price_discard (w : Watcher) (aid aid2 : String) (p : Rat)
    (hp : p ≠ 0) :
    update_price w aid 0 = (w, false) ∧
    (aid2 = w.yes_id →
      (update_price (update_price w aid 0).1 aid2 p).1.yes_price = p ∧
      (update_price (update_price w aid 0).1 aid2 p).2 = true) ∧
    (aid2 = w.no_id → aid2 ≠ w.yes_id →
      (update_price (update_price w aid 0).1 aid2 p).1.no_price = p ∧
      (update_price (update_price w aid 0).1 aid2 p).2 = true) := by
  have h0 : update_price w aid 0 = (w, false) := by unfold update_price; simp
  refine ⟨h0, fun hy => ?_, fun hn hny => ?_⟩
  · rw [h0]; unfold update_price; simp [hp, hy]
  · rw [h0]; unfold update_price; subst hn; simp [hp, hny]

theorem zero_price_discard_witness :
    ((1:Rat)/2 ≠ 0) ∧
    (update_price w0 "X" 0 = (w0, false) ∧
     ("A" = w0.yes_id →
       (update_price (update_price w0 "X" 0).1 "A" ((1:Rat)/2)).1.yes_price = (1:Rat)/2 ∧
       (update_price (update_price w0 "X" 0).1 "A" ((1:Rat)/2)).2 = true) ∧
     ("A" = w0.no_id → "A" ≠ w0.yes_id →
       (update_price (update_price w0 "X" 0).1 "A" ((1:Rat)/2)).1.no_price = (1:Rat)/2 ∧
       (update_price (update_price w0 "X" 0).1 "A" ((1:Rat)/2)).2 = true)) :=
  ⟨by norm_num, zero_price_discard w0 "X" "A" ((1:Rat)/2) (by norm_num)⟩

/-- Claim C10: a nonzero-price update whose asset id matches neither the
YES nor the NO token leaves both price fields unchanged yet still emits a
display-sink notification. -/
theorem unmatched_update_still_notifies (w : Watcher) (aid : String) (p : Rat)
    (hp : p ≠ 0) (hy : aid ≠ w.yes_id) (hn : aid ≠ w.no_id) :
    update_price w aid p = (w, true) := by
  unfold update_price; simp [hp, hy, hn]

theorem unmatched_update_still_notifies_witness :
    ((1:Rat)/2 ≠ 0 ∧ "X" ≠ w0.yes_id ∧ "X" ≠ w0.no_id) ∧
    update_price w0 "X" ((1:Rat)/2) = (w0, true) :=
  ⟨⟨by norm_num, by decide, by decide⟩,
   unmatched_update_still_notifies w0 "X" ((1:Rat)/2) (by norm_num) (by decide) (by decide)⟩

/-- Refutes claim C3 as stated: for a book message whose asks list is not
sorted ascending, the price fed to the update is the first entry (here
`1/2`, landing in `yes_price`), not the lowest-priced entry (`2/5`). -/
theorem book_first_entry_not_lowest :
    process_item w0
      ⟨some "book", some "A", none, none,
        some [⟨some ⟨true, some ((1:Rat)/2)⟩⟩, ⟨some ⟨true, some ((2:Rat)/5)⟩⟩]⟩
      = .ok ⟨"A", "B", (1:Rat)/2, 0⟩ 1 ∧
    (2:Rat)/5 < (1:Rat)/2 := by
  refine ⟨?_, by norm_num⟩
  unfold process_item update_price
  norm_num [w0, notifCount]
  rw [if_neg (by decide : ¬ ("book" = "level1")),
    if_neg (by decide : ¬ ("book" = "price_change"))]

/-- Claim C3 amended: for a book message with a non-empty asks list, the
price fed into the price-state update for its asset id is the FIRST entry
of the asks list (which equals the lowest-priced entry only when the list
is sorted with its minimum first). -/
theorem book_feeds_first_ask (w : Watcher) (it : Item) (aid : String)
    (a : AskEntry) (rest : List AskEntry) (r : RawNum) (p : Rat)
    (het : it.event_type = some "book") (hasks : it.asks = some (a :: rest))
    (haid : it.asset_id = some aid) (hpr : a.price = some r)
    (hval : r.val = some p) :
    process_item w it =
      .ok (update_price w aid p).1 (notifCount (update_price w aid p).2) := by
  unfold process_item
  rw [het, haid, hasks]
  simp [hpr, hval]

theorem book_feeds_first_ask_witness :
    (Item.event_type ⟨some "book", some "A", none, none,
        some [⟨some ⟨true, some ((3:Rat)/5)⟩⟩]⟩ = some "book" ∧
     Item.asks ⟨some "book", some "A", none, none,
        some [⟨some ⟨true, some ((3:Rat)/5)⟩⟩]⟩ =
       some [(⟨some ⟨true, some ((3:Rat)/5)⟩⟩ : AskEntry)] ∧
     Item.asset_id ⟨some "book", some "A", none, none,
        some [⟨some ⟨true, some ((3:Rat)/5)⟩⟩]⟩ = some "A" ∧
     AskEntry.price ⟨some ⟨true, some ((3:Rat)/5)⟩⟩ = some ⟨true, some ((3:Rat)/5)⟩ ∧
     RawNum.val ⟨true, some ((3:Rat)/5)⟩ = some ((3:Rat)/5)) ∧
    process_item w0 ⟨some "book", some "A", none, none,
        some [⟨some ⟨true, some ((3:Rat)/5)⟩⟩]⟩ =
      .ok (update_price w0 "A" ((3:Rat)/5)).1
        (notifCount (update_price w0 "A" ((3:Rat)/5)).2) :=
  ⟨⟨rfl, rfl, rfl, rfl, rfl⟩,
   book_feeds_first_ask w0 _ "A" _ [] _ ((3:Rat)/5) rfl rfl rfl rfl rfl⟩

/-- Refutes claim C2 as stated: a single payload that fails to decode does
NOT leave the session looping — the blanket `except` breaks out of the
receive loop, terminating the session as a stream error. -/
theorem undecodable_payload_terminates :
    session_iter w0 100 (.msg none) = .streamErr w0 0 ∧
    session_iter w0 100 (.msg none) ≠ .next w0 0 := by
  refine ⟨by decide, by decide⟩

/-- Claim C2 amended: within a session, a payload that decodes but matches
no known shape (or decodes to neither a list nor a dict) is skipped and the
receive loop continues; a payload that fails to decode — like a raised
connection error — terminates the session, and expiry terminates it
normally. -/
theorem message_handling_semantics (w : Watcher) (tl : Int) (it : Item)
    (htl : 0 < tl)
    (h1 : it.event_type ≠ some "level1")
    (h2 : it.event_type ≠ some "price_change")
    (h3 : it.event_type ≠ some "book") :
    session_iter w tl (.msg (some (.obj it))) = .next w 0 ∧
    session_iter w tl (.msg (some .other)) = .next w 0 ∧
    session_iter w tl (.msg none) = .streamErr w 0 ∧
    session_iter w tl .recvError = .streamErr w 0 ∧
    (∀ inb, session_iter w 0 inb = .expired w) := by
  have hnle : ¬ tl ≤ 0 := by omega
  have hit : process_item w it = .ok w 0 := by
    unfold process_item; simp [h1, h2, h3]
  refine ⟨?_, ?_, ?_, ?_, fun inb => ?_⟩
  · unfold session_iter; simp [hnle, hit]
  · unfold session_iter; simp [hnle]
  · unfold session_iter; simp [hnle]
  · unfold session_iter; simp [hnle]
  · unfold session_iter; simp

/-- A hit lacking a start or end timestamp key is skipped, not raised on. -/
theorem process_event_skippable (now_abs : Int) (ev : RawEvent)
    (h : hit_skippable ev = true) : process_event now_abs ev = .ok none := by
  unfold hit_skippable at h
  unfold process_event
  split
  · rename_i e heq
    rw [heq] at h; simp at h
  · rename_i m heq
    rw [heq] at h
    simp only [Bool.or_eq_true, Option.isNone_iff_eq_none] at h
    split
    · rename_i sRaw eRaw hs he
      rcases h with h | h
      · rw [h] at hs; cases hs
      · rw [h] at he; cases he
    · rfl

/-- An event list all of whose hits are skippable yields no descriptor. -/
theorem process_events_skippable (now_abs : Int) (evs : List RawEvent)
    (h : evs.all hit_skippable = true) :
    process_events now_abs evs = .ok none := by
  induction evs with
  | nil => rfl
  | cons ev rest ih =>
    simp only [List.all_cons, Bool.and_eq_true] at h
    unfold process_events
    rw [process_event_skippable now_abs ev h.1]
    exact ih h.2

/-- A sweep over benign query outcomes consumes every query and finds
nothing, raising nothing. -/
theorem sweep_benign (now_abs : Int) (fetch : String → FetchResult)
    (qs : List String) (h : ∀ q ∈ qs, benign_result (fetch q) = true) :
    sweep now_abs fetch qs = (.ok none, qs.length) := by
  induction qs with
  | nil => rfl
  | cons q rest ih =>
    have hq := h q (List.mem_cons_self q rest)
    have hrest : ∀ x ∈ rest, benign_result (fetch x) = true :=
      fun x hx => h x (List.mem_cons_of_mem q hx)
    have hr := ih hrest
    unfold sweep
    unfold benign_result at hq
    cases hf : fetch q with
    | netError => simp [hr, bump]
    | response status body =>
      rw [hf] at hq
      by_cases hs : status = 200
      · subst hs
        cases body with
        | none => simp [hr, bump]
        | some events =>
          have hpe := process_events_skippable now_abs events (by simpa using hq)
          simp [hpe, hr, bump]
      · simp [hs, hr, bump]

theorem message_handling_semantics_witness :
    ((0:Int) < 100 ∧
     Item.event_type ⟨some "bogus", none, none, none, none⟩ ≠ some "level1" ∧
     Item.event_type ⟨some "bogus", none, none, none, none⟩ ≠ some "price_change" ∧
     Item.event_type ⟨some "bogus", none, none, none, none⟩ ≠ some "book") ∧
    (session_iter w0 100 (.msg (some (.obj ⟨some "bogus", none, none, none, none⟩))) = .next w0 0 ∧
     session_iter w0 100 (.msg (some .other)) = .next w0 0 ∧
     session_iter w0 100 (.msg none) = .streamErr w0 0 ∧
     session_iter w0 100 .recvError = .streamErr w0 0 ∧
     (∀ inb, session_iter w0 0 inb = .expired w0)) :=
  ⟨⟨by norm_num, by decide, by decide, by decide⟩,
   message_handling_semantics w0 100 ⟨some "bogus", none, none, none, none⟩
     (by norm_num) (by decide) (by decide) (by decide)⟩

/-- Refutes claim C1 as stated: a single query whose 200-status body holds a
hit with a present but unparsable start-timestamp string makes
`find_active_window` raise (`datetime.fromisoformat` is outside the
try/except), rather than skipping the query. -/
theorem find_raises_on_unparsable_timestamp :
    (find_active_window dt0 0 fetch_badts).1 = .error () := by rfl

/-- Claim C1 amended: `find_active_window` returns `None` and never raises
when every individual query's response is a network failure, a non-2xx
status, an undecodable body, or a body all of whose hits lack a start or
end timestamp key — each such query is skipped and the sweep runs to
exhaustion.  (A hit with a present-but-unparsable timestamp string, an
explicitly empty markets list, or — when live — a missing, unparsable or
too-short `clobTokenIds` instead raises to the caller.) -/
theorem find_soft_fails_on_benign (now_et : DT) (now_abs : Int)
    (fetch : String → FetchResult)
    (h : ∀ q, benign_result (fetch q) = true) :
    (find_active_window now_et now_abs fetch).1 = .ok none ∧
    (find_active_window now_et now_abs fetch).2 =
      (title_variants (get_window_boundaries now_et).1 ++
        title_variants (get_window_boundaries now_et).2).length := by
  simp only [find_active_window]
  rw [sweep_benign now_abs fetch _ (fun q _ => h q)]
  exact ⟨rfl, rfl⟩

theorem find_soft_fails_on_benign_witness :
    (∀ q, benign_result ((fun (_ : String) => FetchResult.netError) q) = true) ∧
    ((find_active_window dt0 0 (fun (_ : String) => FetchResult.netError)).1 = .ok none ∧
     (find_active_window dt0 0 (fun (_ : String) => FetchResult.netError)).2 =
       (title_variants (get_window_boundaries dt0).1 ++
         title_variants (get_window_boundaries dt0).2).length) :=
  ⟨fun _ => rfl, find_soft_fails_on_benign dt0 0 _ (fun _ => rfl)⟩

/-- Claim C9: when every query's response is a 200 with an empty result
set, `find_active_window` returns `None`, and only after issuing one query
per generated title candidate of both the current and the next window (all
six candidates, not fewer). -/
theorem sweep_exhaustion_on_empty (now_et : DT) (now_abs : Int)
    (fetch : String → FetchResult)
    (h : ∀ q, fetch q = .response 200 (some [])) :
    find_active_window now_et now_abs fetch =
      (.ok none,
       (title_variants (get_window_boundaries now_et).1 ++
         title_variants (get_window_boundaries now_et).2).length) ∧
    (title_variants (get_window_boundaries now_et).1 ++
      title_variants (get_window_boundaries now_et).2).length = 6 := by
  have hb : ∀ q, benign_result (fetch q) = true := by
    intro q; rw [h q]; rfl
  constructor
  · simp only [find_active_window]
    exact sweep_benign now_abs fetch _ (fun q _ => hb q)
  · rfl

theorem sweep_exhaustion_on_empty_witness :
    (∀ q, (fun (_ : String) => FetchResult.response 200 (some [])) q =
      FetchResult.response 200 (some [])) ∧
    (find_active_window dt0 0 (fun (_ : String) => FetchResult.response 200 (some [])) =
      (.ok none,
       (title_variants (get_window_boundaries dt0).1 ++
         title_variants (get_window_boundaries dt0).2).length) ∧
     (title_variants (get_window_boundaries dt0).1 ++
       title_variants (get_window_boundaries dt0).2).length = 6) :=
  ⟨fun _ => rfl, sweep_exhaustion_on_empty dt0 0 _ (fun _ => rfl)⟩

/-- A hit whose first market has distinct leading token ids can only yield
a descriptor with distinct yes/no ids. -/
theorem process_event_tokens_distinct (now_abs : Int) (ev : RawEvent)
    (d : Descriptor) (hok : process_event now_abs ev = .ok (some d))
    (h : event_tokens_distinct ev = true) : d.yes_id ≠ d.no_id := by
  unfold process_event at hok
  split at hok
  · simp at hok
  · rename_i m heq
    have hmd : market_tokens_distinct m = true := by
      unfold event_tokens_distinct at h
      unfold first_market at heq
      cases hm : ev.markets with
      | none =>
        rw [hm] at heq
        injection heq with h2
        subst h2
        rfl
      | some l =>
        cases l with
        | nil => rw [hm] at heq; simp at heq
        | cons m0 rest =>
          rw [hm] at heq
          injection heq with h2
          subst h2
          rw [hm] at h
          exact h
    clear h heq
    split at hok
    · split at hok
      · split at hok
        · simp at hok
        · split at hok
          · split at hok
            · rename_i t0 t1 tl hclob
              simp only [Except.ok.injEq, Option.some.injEq] at hok
              subst hok
              unfold market_tokens_distinct at hmd
              rw [hclob] at hmd
              simpa using hmd
            · simp at hok
          · simp at hok
      · simp at hok
    · simp at hok

/-- Lifts token distinctness through the event loop. -/
theorem process_events_tokens_distinct (now_abs : Int) (evs : List RawEvent)
    (d : Descriptor) (hok : process_events now_abs evs = .ok (some d))
    (h : evs.all event_tokens_distinct = true) : d.yes_id ≠ d.no_id := by
  induction evs with
  | nil => simp [process_events] at hok
  | cons ev rest ih =>
    simp only [List.all_cons, Bool.and_eq_true] at h
    unfold process_events at hok
    split at hok
    · simp at hok
    · rename_i d0 heq
      simp only [Except.ok.injEq, Option.some.injEq] at hok
      subst hok
      exact process_event_tokens_distinct now_abs ev d0 heq h.1
    · exact ih hok h.2

/-- Lifts token distinctness through the query sweep. -/
theorem sweep_tokens_distinct (now_abs : Int) (fetch : String → FetchResult)
    (qs : List String) (d : Descriptor)
    (h : ∀ q ∈ qs, fetch_tokens_distinct (fetch q) = true)
    (hok : (sweep now_abs fetch qs).1 = .ok (some d)) : d.yes_id ≠ d.no_id := by
  induction qs with
  | nil => simp [sweep] at hok
  | cons q rest ih =>
    have hq := h q (List.mem_cons_self q rest)
    have hrest : ∀ x ∈ rest, fetch_tokens_distinct (fetch x) = true :=
      fun x hx => h x (List.mem_cons_of_mem q hx)
    unfold sweep at hok
    split at hok
    · exact ih hrest (by simpa [bump] using hok)
    · rename_i status body heq
      rw [heq] at hq
      split at hok
      · exact ih hrest (by simpa [bump] using hok)
      · split at hok
        · exact ih hrest (by simpa [bump] using hok)
        · rename_i events
          split at hok
          · simp at hok
          · rename_i d0 heqp
            simp only [Except.ok.injEq, Option.some.injEq] at hok
            subst hok
            exact process_events_tokens_distinct now_abs events d0 heqp
              (by simpa [fetch_tokens_distinct] using hq)
          · exact ih hrest (by simpa [bump] using hok)

/-- Refutes claim C4 as stated: nothing in `find_active_window` enforces
`yes_token_id != no_token_id`; a live short hit whose `clobTokenIds`
repeats one id is returned verbatim, with equal yes/no ids. -/
theorem duplicate_tokens_returned :
    (find_active_window dt0 50 fetch_dup).1 =
      .ok (some ⟨"BTC 15m", "T", "T", 0, 100, none, none⟩) ∧
    Descriptor.yes_id ⟨"BTC 15m", "T", "T", 0, 100, none, none⟩ =
      Descriptor.no_id ⟨"BTC 15m", "T", "T", 0, 100, none, none⟩ :=
  ⟨by rfl, rfl⟩

/-- Claim C4 amended: the returned descriptor's yes/no token ids are the
first two entries of the hit's parsed `clobTokenIds` list; they are
distinct whenever every candidate hit's first two entries are distinct
(the code itself never checks this). -/
theorem descriptor_tokens_distinct (now_et : DT) (now_abs : Int)
    (fetch : String → FetchResult) (d : Descriptor)
    (hd : ∀ q, fetch_tokens_distinct (fetch q) = true)
    (hr : (find_active_window now_et now_abs fetch).1 = .ok (some d)) :
    d.yes_id ≠ d.no_id := by
  simp only [find_active_window] at hr
  exact sweep_tokens_distinct now_abs fetch _ d (fun q _ => hd q) hr

theorem descriptor_tokens_distinct_witness :
    ((∀ q, fetch_tokens_distinct (fetch_ok q) = true) ∧
     (find_active_window dt0 50 fetch_ok).1 =
       .ok (some ⟨"BTC 15m", "Y", "N", 0, 100, none, none⟩)) ∧
    Descriptor.yes_id ⟨"BTC 15m", "Y", "N", 0, 100, none, none⟩ ≠
      Descriptor.no_id ⟨"BTC 15m", "Y", "N", 0, 100, none, none⟩ :=
  ⟨⟨fun _ => rfl, by rfl⟩,
   descriptor_tokens_distinct dt0 50 fetch_ok _ (fun _ => rfl) (by rfl)⟩

/-- Claim C8: for every valid civil time `t`, the computed window start has
minute-of-hour a multiple of 15 with seconds and sub-seconds zero, the end
is exactly start + 15 minutes, and `t` lies in the half-open interval
`[start, end)`. -/
theorem window_boundaries_correct (t : DT) (h : t.Valid) :
    (get_window_boundaries t).1.minute % 15 = 0 ∧
    (get_window_boundaries t).1.second = 0 ∧
    (get_window_boundaries t).1.usec = 0 ∧
    (get_window_boundaries t).2 = addMinutes (get_window_boundaries t).1 15 ∧
    (get_window_boundaries t).1.le t ∧
    t.lt (get_window_boundaries t).2 := by
  obtain ⟨hm1, hm2, hd1, hd2, hh, hmin, hsec, hu⟩ := h
  have hdim : daysInMonth t.year t.month ≤ 31 := by
    unfold daysInMonth
    split
    · split <;> omega
    · split <;> omega
  have hd31 : t.day ≤ 31 := le_trans hd2 hdim
  refine ⟨?_, rfl, rfl, rfl, ?_, ?_⟩
  · simp [get_window_boundaries, Nat.mul_mod_left]
  · unfold get_window_boundaries DT.le DT.key
    dsimp only
    omega
  · unfold get_window_boundaries addMinutes
    dsimp only
    by_cases hq : t.minute < 45
    · have e1 : (t.minute / 15 * 15 + 15) / 60 = 0 := by omega
      have e2 : (t.minute / 15 * 15 + 15) % 60 = t.minute / 15 * 15 + 15 := by omega
      rw [e1, e2]
      have e3 : (t.hour + 0) % 24 = t.hour := by omega
      have e4 : (t.hour + 0) / 24 = 0 := by omega
      rw [e3, e4]
      simp only [addDays]
      unfold DT.lt DT.key
      dsimp only
      omega
    · have e1 : t.minute / 15 * 15 = 45 := by omega
      rw [e1]
      norm_num
      by_cases hhh : t.hour < 23
      · have e3 : (t.hour + 1) % 24 = t.hour + 1 := by omega
        have e4 : (t.hour + 1) / 24 = 0 := by omega
        rw [e3, e4]
        simp only [addDays]
        unfold DT.lt DT.key
        dsimp only
        omega
      · have h23 : t.hour = 23 := by omega
        rw [h23]
        norm_num
        simp only [addDays]
        unfold nextDay
        dsimp only
        split
        · unfold DT.lt DT.key; dsimp only; omega
        · split
          · unfold DT.lt DT.key; dsimp only; omega
          · unfold DT.lt DT.key; dsimp only; omega

theorem window_boundaries_correct_witness :
    dt0.Valid ∧
    ((get_window_boundaries dt0).1.minute % 15 = 0 ∧
     (get_window_boundaries dt0).1.second = 0 ∧
     (get_window_boundaries dt0).1.usec = 0 ∧
     (get_window_boundaries dt0).2 = addMinutes (get_window_boundaries dt0).1 15 ∧
     (get_window_boundaries dt0).1.le dt0 ∧
     dt0.lt (get_window_boundaries dt0).2) :=
  ⟨by decide, window_boundaries_correct dt0 (by decide)⟩

end PM
